import Mathlib

/-!
Shallow embedding of `src/chalice_spec/chalice_legacy.py`, the route
documentation interceptor of the chalice-spec package.

The module installs itself on a Chalice application object from
`ChalicePlugin.init_spec`: it pops the application reference out of the spec
options, wraps the application's `route` and `register_blueprint` methods, and
forwards every registration call to the captured originals after recording the
documentation side-effect in the shared spec-building object.

External collaborators (`apispec.APISpec`, `pydantic.BaseModel`) and the
repository's own `chalice_spec/docs.py` (the `Docs` and `Operation` classes)
are not part of the embedded source file; where their behavior matters it is
modelled from the specification, and each such definition says so in its doc
comment.
-/

namespace ChaliceSpec

/-- Embedding of Python `str.lower` on a single character, restricted to the
ASCII range that HTTP method names are drawn from: the codepoints 65-90
(`A`-`Z`) map to 97-122 (`a`-`z`), every other character is returned
unchanged.  Python's full Unicode lowercasing agrees with this on ASCII
strings. -/
def pyCharLower (c : Char) : Char :=
  if 65 ≤ c.toNat ∧ c.toNat ≤ 90 then Char.ofNat (c.toNat + 32) else c

/-- Embedding of Python `str.lower`: characterwise ASCII lowercasing. -/
def pyLower (s : String) : String :=
  ⟨s.data.map pyCharLower⟩

/-- Schema values attached to operations.  `baseModel` is the pydantic
`BaseModel` class itself, used by the module as the default placeholder
schema; `other` stands for any caller-supplied schema object. -/
inductive Schema where
  | baseModel : Schema
  | other : Nat → Schema
deriving DecidableEq, Repr

/-- Modelled from the spec: `Operation` lives in `chalice_spec/docs.py`, which
is not under `src/`.  Per the spec a descriptor entry describes "the expected
response schema and (optionally) expected request-body schema" for one method,
so an operation carries an optional request schema and an optional response
schema (`none` embeds Python `None`). -/
structure Operation where
  request : Option Schema
  response : Option Schema
deriving DecidableEq, Repr

/-- Modelled from the spec: `Docs` lives in `chalice_spec/docs.py`, which is
not under `src/`.  Per the spec a documentation descriptor is "keyed by
lower-cased HTTP method name, each value describing the expected response
schema and (optionally) expected request-body schema", and descriptor objects
expose a `summary` attribute. -/
structure Docs where
  entries : List (String × Operation)
  summary : Option String
deriving DecidableEq, Repr

/-- Lookup of the operation a descriptor holds for a method name. -/
def Docs.find (d : Docs) (m : String) : Option Operation :=
  (d.entries.find? (fun p => p.1 == m)).map (fun p => p.2)

/-- Modelled from the spec: `Docs.build_operations(spec, methods)` lives in
`chalice_spec/docs.py`, which is not under `src/`.  Per the spec it converts
the descriptor "into a mapping from method name to spec-library operation
object" for the declared methods, a descriptor supplying "an entry (possibly
with null request schema) for every declared method". -/
def Docs.build_operations (d : Docs) (methods : List String) : List (String × Operation) :=
  methods.filterMap (fun m => (d.find m).map (fun op => (m, op)))

/-- The keyword options (`**kwargs`) of a route-registration call.  The
Python dict is split into the two keys the interceptor inspects — the reserved
`docs` key and the `methods` key (`none` embeds the key being absent) — plus
the remaining, opaque options, which the interceptor never touches. -/
structure Kwargs where
  docs : Option Docs
  methods : Option (List String)
  rest : List (String × Nat)
deriving DecidableEq, Repr

/-- Embedding of `kwargs.pop("docs", None)` (line 49 of the source): the value
stored under the reserved key (`none` if absent) together with the options
with that key removed. -/
def Kwargs.popDocs (kw : Kwargs) : Option Docs × Kwargs :=
  (kw.docs, { kw with docs := none })

/-- Embedding of `kwargs.get("methods", ["get"])` (line 50 of the source): a
read that defaults to `["get"]` and does not modify the options. -/
def Kwargs.getMethods (kw : Kwargs) : List String :=
  kw.methods.getD ["get"]

/-- Lines 53-65 of the source: the descriptor synthesized when default-docs
generation is enabled and no descriptor was supplied.  Every declared method
maps to `Operation(response=BaseModel, request=None if method in ["get",
"delete", "head", "options"] else BaseModel)`; no summary is supplied. -/
def defaultDocs (methods : List String) : Docs :=
  { entries := methods.map (fun m =>
      (m, { request := if m ∈ (["get", "delete", "head", "options"] : List String)
                       then none else some Schema.baseModel
          , response := some Schema.baseModel }))
  , summary := none }

/-- Modelled from the spec: one entry recorded by the spec-building object's
`path(path, operations, summary)` registration method. -/
structure PathEntry where
  path : String
  operations : List (String × Operation)
  summary : Option String
deriving DecidableEq, Repr

/-- Modelled from the spec: the spec-building object (`apispec.APISpec`,
external) is "an external, shared, mutable accumulator" into which "all route
registrations append". -/
structure APISpec where
  pathEntries : List PathEntry
deriving DecidableEq, Repr

/-- Modelled from the spec: `spec.path(path, operations, summary)` appends one
entry to the accumulator. -/
def APISpec.path (s : APISpec) (p : String) (ops : List (String × Operation))
    (sum : Option String) : APISpec :=
  { pathEntries := s.pathEntries ++ [⟨p, ops, sum⟩] }

/-- Observable calls the intercepted `route` makes, in order: `specPath` is a
`spec.path(...)` registration into the spec-building object (the
documentation side-effect), `origRoute` is the delegation to the captured
original `route` of the application. -/
inductive Event where
  | specPath : String → List (String × Operation) → Option String → Event
  | origRoute : String → Kwargs → Event
deriving DecidableEq, Repr

/-- Test for the delegation event. -/
def Event.isOrigRoute : Event → Bool
  | .origRoute _ _ => true
  | _ => false

/-- Everything one intercepted route-registration call produces: the new
state of the spec-building object, the ordered trace of observable calls, and
the value returned to the caller. -/
structure RouteOutcome (α : Type) where
  spec : APISpec
  trace : List Event
  result : α
deriving DecidableEq, Repr

/-- Embedding of the closure `route(path, **kwargs)` (lines 42-71 of the
source), the interceptor installed in place of `chalice_app.route`.  It pops
the reserved `docs` key, lowercases the declared methods for documentation
purposes, synthesizes a default descriptor when `generate_default_docs` is set
and none was supplied, registers the descriptor's operations into the
spec-building object when a descriptor exists (a `Docs` instance is always
truthy in Python, so `if docs:` is a `None` test), and finally returns
`original_route(path, **kwargs)` on the popped options.  `originalRoute` is
the framework's original registration function, opaque to the module. -/
def route {α : Type} (generateDefaultDocs : Bool) (originalRoute : String → Kwargs → α)
    (spec : APISpec) (path : String) (kwargs : Kwargs) : RouteOutcome α :=
  let popped := kwargs.popDocs
  let kwargs1 := popped.2
  let methods := kwargs1.getMethods.map pyLower
  let docs : Option Docs :=
    match popped.1, generateDefaultDocs with
    | none, true => some (defaultDocs methods)
    | d, _ => d
  match docs with
  | some d =>
    let ops := d.build_operations methods
    { spec := spec.path path ops d.summary
    , trace := [Event.specPath path ops d.summary, Event.origRoute path kwargs1]
    , result := originalRoute path kwargs1 }
  | none =>
    { spec := spec
    , trace := [Event.origRoute path kwargs1]
    , result := originalRoute path kwargs1 }

/-- Python runtime errors the module can raise. -/
inductive PyErr where
  | keyError : PyErr
  | typeError : PyErr
  | attributeError : PyErr
deriving DecidableEq, Repr

/-- Embedding of `blueprint_route(prefix_url)` applied to a path and options
(lines 73-77 of the source): the replacement installed as `blueprint.route`,
which forwards to the intercepted `route` with `prefix_url + path`.  The
parameter is annotated `str` in the source but `register_blueprint` passes its
`url_prefix` argument, an `Optional[str]` defaulting to `None`; when it is
`None`, Python evaluates `None + path` and raises `TypeError`. -/
def blueprint_route {α : Type} (generateDefaultDocs : Bool)
    (originalRoute : String → Kwargs → α) (spec : APISpec) (prefixUrl : Option String)
    (path : String) (kwargs : Kwargs) : Except PyErr (RouteOutcome α) :=
  match prefixUrl with
  | none => Except.error PyErr.typeError
  | some p => Except.ok (route generateDefaultDocs originalRoute spec (p ++ path) kwargs)

/-- A Chalice `Blueprint` object, reduced to the single attribute the module
touches: its `route` method.  `routeReplaced = none` models the blueprint
still carrying its own original `route`; `routeReplaced = some pu` models the
attribute having been overwritten with `blueprint_route(pu)`. -/
structure Blueprint where
  routeReplaced : Option (Option String)
deriving DecidableEq, Repr

/-- Embedding of the closure `register_blueprint(blueprint, name_prefix,
url_prefix)` (lines 81-91 of the source): it overwrites `blueprint.route` with
`blueprint_route(url_prefix)` and then delegates to the captured original
`register_blueprint` with the unchanged arguments; the delegated call is
returned as data (mutated blueprint, name and url arguments). -/
def register_blueprint (bp : Blueprint) (namePrefixOpt urlPrefixOpt : Option String) :
    Blueprint × Blueprint × Option String × Option String :=
  let bp1 : Blueprint := { bp with routeReplaced := some urlPrefixOpt }
  (bp1, bp1, namePrefixOpt, urlPrefixOpt)

/-- The application's route-registration method as a value: the framework's
`original` method (identified opaquely), or the module's `intercepted` wrapper
closing over the method it replaced. -/
inductive RouteFn where
  | original : Nat → RouteFn
  | intercepted : RouteFn → RouteFn
deriving DecidableEq, Repr

/-- The application's blueprint-registration method as a value, with the same
reading as `RouteFn`. -/
inductive RegisterBlueprintFn where
  | original : Nat → RegisterBlueprintFn
  | intercepted : RegisterBlueprintFn → RegisterBlueprintFn
deriving DecidableEq, Repr

/-- The Chalice application object, reduced to the two methods `init_spec`
replaces. -/
structure ChaliceApp where
  route : RouteFn
  register_blueprint : RegisterBlueprintFn
deriving DecidableEq, Repr

/-- A value stored in the spec-building object's `options` mapping: `appRef`
is the reference to the application object, `other` any unrelated option
value. -/
inductive OptVal where
  | appRef : OptVal
  | other : Nat → OptVal
deriving DecidableEq, Repr

/-- The state `init_spec` acts on: the spec-building object's `options`
mapping together with the application object that `appRef` entries refer
to. -/
structure InitState where
  options : List (String × OptVal)
  app : ChaliceApp
deriving DecidableEq, Repr

/-- Embedding of Python `dict.pop(key)` without a default: the value of the
key's binding together with the mapping with that binding removed, or `none`
(which the caller turns into `KeyError`) when the key is absent. -/
def dictPop (opts : List (String × OptVal)) (k : String) :
    Option (OptVal × List (String × OptVal)) :=
  match opts.find? (fun p => p.1 == k) with
  | none => none
  | some p => some (p.2, opts.eraseP (fun q => q.1 == k))

/-- Embedding of `ChalicePlugin.init_spec(spec)` (lines 30-96 of the source).
It first evaluates `spec.options.pop("chalice_app")`: a missing key raises
`KeyError` before anything else happens, so the state is returned unchanged.
Otherwise the binding is removed from the options, the original `route` and
`register_blueprint` methods are captured, and both attributes are replaced
with the interceptors closing over the originals.  A non-application value
under the key fails at `chalice_app.route` with `AttributeError`, the pop
having already happened. -/
def init_spec (st : InitState) : Except PyErr Unit × InitState :=
  match dictPop st.options "chalice_app" with
  | none => (Except.error PyErr.keyError, st)
  | some (OptVal.appRef, rest) =>
    (Except.ok ()
    , { options := rest
      , app := { route := RouteFn.intercepted st.app.route
               , register_blueprint :=
                   RegisterBlueprintFn.intercepted st.app.register_blueprint } })
  | some (OptVal.other _, rest) =>
    (Except.error PyErr.attributeError, { st with options := rest })

/-! Helper lemmas. -/

theorem toNat_ofNat_of_bounds (n : Nat) (h1 : 97 ≤ n) (h2 : n ≤ 122) :
    (Char.ofNat n).toNat = n := by
  have hv : n.isValidChar := Or.inl (by omega)
  simp [Char.ofNat, hv, Char.toNat, Char.ofNatAux, UInt32.toNat, BitVec.toNat_ofNatLt]

theorem pyCharLower_idem (c : Char) : pyCharLower (pyCharLower c) = pyCharLower c := by
  by_cases h : 65 ≤ c.toNat ∧ c.toNat ≤ 90
  · have h1 : pyCharLower c = Char.ofNat (c.toNat + 32) := by
      unfold pyCharLower; rw [if_pos h]
    have h2 : ¬ (65 ≤ (Char.ofNat (c.toNat + 32)).toNat ∧
        (Char.ofNat (c.toNat + 32)).toNat ≤ 90) := by
      rw [toNat_ofNat_of_bounds (c.toNat + 32) (by omega) (by omega)]
      omega
    rw [h1]
    unfold pyCharLower
    rw [if_neg h2]
  · have h1 : pyCharLower c = c := by unfold pyCharLower; rw [if_neg h]
    rw [h1, h1]

theorem pyLower_idem (s : String) : pyLower (pyLower s) = pyLower s := by
  unfold pyLower
  refine congrArg (fun l => (⟨l⟩ : String)) ?_
  show (s.data.map pyCharLower).map pyCharLower = s.data.map pyCharLower
  rw [List.map_map]
  exact List.map_congr_left (fun c _ => pyCharLower_idem c)

theorem map_pyLower_idem (ms : List String) :
    (ms.map pyLower).map pyLower = ms.map pyLower := by
  rw [List.map_map]
  exact List.map_congr_left (fun s _ => pyLower_idem s)

theorem find?_map_pair (f : String → Operation) (ms : List String) (m : String)
    (hm : m ∈ ms) :
    (ms.map (fun x => (x, f x))).find? (fun p => p.1 == m) = some (m, f m) := by
  induction ms with
  | nil => cases hm
  | cons x xs ih =>
    by_cases hx : x = m
    · subst hx
      simp [List.find?]
    · have hxm : (x == m) = false := beq_eq_false_iff_ne.mpr hx
      have hm' : m ∈ xs := by
        rcases List.mem_cons.mp hm with h | h
        · exact absurd h.symm hx
        · exact h
      simp only [List.map_cons, List.find?, hxm]
      exact ih hm'

theorem defaultDocs_find (ms : List String) (m : String) (hm : m ∈ ms) :
    (defaultDocs ms).find m =
      some { request := if m ∈ (["get", "delete", "head", "options"] : List String)
                        then none else some Schema.baseModel
           , response := some Schema.baseModel } := by
  unfold defaultDocs Docs.find
  rw [find?_map_pair _ ms m hm]
  rfl

theorem find?_eraseP_of_nodup (opts : List (String × OptVal)) (k : String)
    (hnd : (opts.map Prod.fst).Nodup) :
    (opts.eraseP (fun q => q.1 == k)).find? (fun q => q.1 == k) = none := by
  induction opts with
  | nil => rfl
  | cons p l ih =>
    rw [List.map_cons, List.nodup_cons] at hnd
    by_cases hp : p.1 = k
    · have hb : (p.1 == k) = true := beq_iff_eq.mpr hp
      simp only [List.eraseP_cons, hb]
      rw [List.find?_eq_none]
      intro q hq hqk
      exact hnd.1 (by rw [hp, ← (beq_iff_eq.mp hqk)]; exact List.mem_map_of_mem Prod.fst hq)
    · have hb : (p.1 == k) = false := beq_eq_false_iff_ne.mpr hp
      simp only [List.eraseP_cons, hb, cond_false, List.find?, hb]
      exact ih hnd.2

/-! Claim theorems. -/

/-- C1: for every intercepted route-registration call — documentation
descriptor present, absent, or synthesized — the original route-registration
function is invoked exactly once, and that invocation comes after any
documentation side-effect: it is the last event of the call's trace. -/
theorem c1_original_invoked_once_after_docs {α : Type} (gen : Bool)
    (orig : String → Kwargs → α) (spec : APISpec) (path : String) (kw : Kwargs) :
    (route gen orig spec path kw).trace.countP Event.isOrigRoute = 1 ∧
    (route gen orig spec path kw).trace.getLast? =
      some (Event.origRoute path kw.popDocs.2) := by
  rcases hd : kw.docs with _ | d <;> cases gen <;>
    simp [route, Kwargs.popDocs, hd, Event.isOrigRoute]

/-- Spec-side definition for C2, following the spec's words: the value the
original route function returns for the same path and the same options with
the reserved docs key removed. -/
def originalOnStripped {α : Type} (orig : String → Kwargs → α) (path : String)
    (kw : Kwargs) : α :=
  orig path { kw with docs := none }

/-- C2: for every path and every set of keyword options, the value returned by
the intercepted route function equals exactly the value the original route
function returns for the same path and the same options with the reserved
docs key removed. -/
theorem c2_result_refines_original {α : Type} (gen : Bool)
    (orig : String → Kwargs → α) (spec : APISpec) (path : String) (kw : Kwargs) :
    (route gen orig spec path kw).result = originalOnStripped orig path kw := by
  rcases hd : kw.docs with _ | d <;> cases gen <;>
    simp [route, originalOnStripped, Kwargs.popDocs, hd]

/-- C3 (code bug): the claim promises that the empty string is used as the
prefix when a blueprint is registered without one, but `register_blueprint`
installs `blueprint_route(url_prefix)` with `url_prefix = None`, so any route
then declared on the blueprint evaluates `None + path` and raises `TypeError`.
The theorem evaluates the model at the failing input and contrasts it with the
non-error outcome the promised empty-string prefix would give. -/
theorem c3_none_prefix_raises_type_error :
    (register_blueprint ⟨none⟩ none none).1.routeReplaced = some none ∧
    blueprint_route true (fun _ _ => (0 : Nat)) ⟨[]⟩ none "/items" ⟨none, none, []⟩ =
      Except.error PyErr.typeError ∧
    blueprint_route true (fun _ _ => (0 : Nat)) ⟨[]⟩ (some "") "/items" ⟨none, none, []⟩ =
      Except.ok (route true (fun _ _ => (0 : Nat)) ⟨[]⟩ "/items" ⟨none, none, []⟩) := by
  refine ⟨rfl, rfl, ?_⟩
  have h : ("" ++ "/items" : String) = "/items" := by decide
  simp [blueprint_route, h]

/-- C6: for every intercepted route-registration call, the reserved option key
docs is removed from the keyword options before they are forwarded to the
original route-registration function, and all other options — the methods key
and the remaining opaque options — are forwarded unchanged. -/
theorem c6_docs_stripped_rest_unchanged {α : Type} (gen : Bool)
    (orig : String → Kwargs → α) (spec : APISpec) (path : String) (kw : Kwargs) :
    (route gen orig spec path kw).trace.getLast? =
      some (Event.origRoute path kw.popDocs.2) ∧
    (route gen orig spec path kw).result = orig path kw.popDocs.2 ∧
    kw.popDocs.2.docs = none ∧
    kw.popDocs.2.methods = kw.methods ∧
    kw.popDocs.2.rest = kw.rest := by
  refine ⟨?_, ?_, rfl, rfl, rfl⟩ <;>
    rcases hd : kw.docs with _ | d <;> cases gen <;>
      simp [route, Kwargs.popDocs, hd]

/-- C8: for every registration call with no documentation descriptor and
default-docs generation disabled, no entry is added to the spec-building
object, and the original registration function receives options identical to
those supplied (the reserved key being absent anyway). -/
theorem c8_no_docs_defaults_off_frame {α : Type} (orig : String → Kwargs → α)
    (spec : APISpec) (path : String) (kw : Kwargs) (h : kw.docs = none) :
    (route false orig spec path kw).spec = spec ∧
    (route false orig spec path kw).trace = [Event.origRoute path kw] ∧
    (route false orig spec path kw).result = orig path kw := by
  have hkw : ({ kw with docs := none } : Kwargs) = kw := by
    cases kw
    simp_all
  simp [route, Kwargs.popDocs, h, hkw]

/-- Witness for C8 at a concrete registration call. -/
theorem c8_witness :
    (route false (fun p _ => p) ⟨[]⟩ "/hello" ⟨none, some ["get"], [("cors", 1)]⟩).spec =
      (⟨[]⟩ : APISpec) ∧
    (route false (fun p _ => p) ⟨[]⟩ "/hello" ⟨none, some ["get"], [("cors", 1)]⟩).trace =
      [Event.origRoute "/hello" ⟨none, some ["get"], [("cors", 1)]⟩] ∧
    (route false (fun p _ => p) ⟨[]⟩ "/hello" ⟨none, some ["get"], [("cors", 1)]⟩).result =
      "/hello" :=
  c8_no_docs_defaults_off_frame (fun p _ => p) ⟨[]⟩ "/hello"
    ⟨none, some ["get"], [("cors", 1)]⟩ rfl

/-- C10: blueprint path composition is plain string concatenation of the URL
prefix and the declared path, with no separator insertion or normalization;
in particular prefix `/v1/` and path `/items` yield `/v1//items`. -/
theorem c10_prefix_concat_is_plain {α : Type} (gen : Bool)
    (orig : String → Kwargs → α) (spec : APISpec) (p q : String) (kw : Kwargs) :
    blueprint_route gen orig spec (some p) q kw =
      Except.ok (route gen orig spec (p ++ q) kw) ∧
    blueprint_route gen orig spec (some "/v1/") "/items" kw =
      Except.ok (route gen orig spec "/v1//items" kw) := by
  constructor
  · rfl
  · have h : ("/v1/" ++ "/items" : String) = "/v1//items" := by decide
    simp [blueprint_route, h]

/-- C4: if the application reference is absent from the spec-building object's
options at installation time, installation raises the configuration error
(`KeyError` from `spec.options.pop`) and performs no mutation at all — the
state, application object included, is returned unchanged, so neither of the
application's registration functions is replaced.  When the reference is
present (options being a dict, its keys are assumed distinct), it is popped,
both interceptors are installed over the captured originals, and the key is
gone from the resulting options mapping. -/
theorem c4_init_spec_consumes_app_ref (st : InitState) :
    (st.options.find? (fun p => p.1 == "chalice_app") = none →
      init_spec st = (Except.error PyErr.keyError, st)) ∧
    (∀ rest, (st.options.map Prod.fst).Nodup →
      dictPop st.options "chalice_app" = some (OptVal.appRef, rest) →
      init_spec st = (Except.ok ()
        , { options := rest
          , app := { route := RouteFn.intercepted st.app.route
                   , register_blueprint :=
                       RegisterBlueprintFn.intercepted st.app.register_blueprint } }) ∧
      rest.find? (fun p => p.1 == "chalice_app") = none) := by
  constructor
  · intro h
    unfold init_spec dictPop
    rw [h]
  · intro rest hnd hpop
    refine ⟨by unfold init_spec; rw [hpop], ?_⟩
    have hrest : rest = st.options.eraseP (fun q => q.1 == "chalice_app") := by
      unfold dictPop at hpop
      rcases hf : st.options.find? (fun p => p.1 == "chalice_app") with _ | p
      · rw [hf] at hpop
        cases hpop
      · rw [hf] at hpop
        simp only [Option.some.injEq, Prod.mk.injEq] at hpop
        exact hpop.2.symm
    rw [hrest]
    exact find?_eraseP_of_nodup st.options "chalice_app" hnd

/-- Witness for C4: one concrete state missing the reference, one carrying
it. -/
theorem c4_witness :
    (init_spec ⟨[("x", OptVal.other 5)],
        ⟨RouteFn.original 0, RegisterBlueprintFn.original 1⟩⟩ =
      (Except.error PyErr.keyError,
        ⟨[("x", OptVal.other 5)],
          ⟨RouteFn.original 0, RegisterBlueprintFn.original 1⟩⟩)) ∧
    ((init_spec ⟨[("chalice_app", OptVal.appRef), ("x", OptVal.other 5)],
        ⟨RouteFn.original 0, RegisterBlueprintFn.original 1⟩⟩ =
      (Except.ok (),
        ⟨[("x", OptVal.other 5)],
          ⟨RouteFn.intercepted (RouteFn.original 0),
            RegisterBlueprintFn.intercepted (RegisterBlueprintFn.original 1)⟩⟩)) ∧
      ([("x", OptVal.other 5)] : List (String × OptVal)).find?
        (fun p => p.1 == "chalice_app") = none) :=
  ⟨(c4_init_spec_consumes_app_ref
      ⟨[("x", OptVal.other 5)],
        ⟨RouteFn.original 0, RegisterBlueprintFn.original 1⟩⟩).1 (by decide)
  , (c4_init_spec_consumes_app_ref
      ⟨[("chalice_app", OptVal.appRef), ("x", OptVal.other 5)],
        ⟨RouteFn.original 0, RegisterBlueprintFn.original 1⟩⟩).2
      [("x", OptVal.other 5)] (by decide) (by decide)⟩

/-- C5: for every registration call made with default-docs generation enabled
and no documentation descriptor supplied, the spec entry is built from the
synthesized descriptor, and that descriptor assigns a null request schema to
exactly the declared methods whose lower-cased name is in
{get, delete, head, options}, the placeholder `BaseModel` schema to every
other declared method's request, and the placeholder `BaseModel` schema to
every declared method's response. -/
theorem c5_default_docs_synthesis {α : Type} (orig : String → Kwargs → α)
    (spec : APISpec) (path : String) (kw : Kwargs) (h : kw.docs = none) :
    (route true orig spec path kw).spec =
      spec.path path
        ((defaultDocs (kw.getMethods.map pyLower)).build_operations
          (kw.getMethods.map pyLower)) none ∧
    (∀ m ∈ kw.getMethods,
      (defaultDocs (kw.getMethods.map pyLower)).find (pyLower m) =
        some { request := if pyLower m ∈ (["get", "delete", "head", "options"] : List String)
                          then none else some Schema.baseModel
             , response := some Schema.baseModel }) := by
  constructor
  · simp [route, Kwargs.popDocs, h, Kwargs.getMethods, APISpec.path, defaultDocs]
  · intro m hm
    exact defaultDocs_find _ (pyLower m) (List.mem_map_of_mem pyLower hm)

/-- Witness for C5 at a concrete call declaring methods `["POST", "get"]`. -/
theorem c5_witness :
    (route true (fun _ _ => (0 : Nat)) ⟨[]⟩ "/hello" ⟨none, some ["POST", "get"], []⟩).spec =
      APISpec.path ⟨[]⟩ "/hello"
        ((defaultDocs ["post", "get"]).build_operations ["post", "get"]) none ∧
    (defaultDocs ["post", "get"]).find "post" =
      some { request := some Schema.baseModel, response := some Schema.baseModel } := by
  have h := c5_default_docs_synthesis (fun _ _ => (0 : Nat)) ⟨[]⟩ "/hello"
    ⟨none, some ["POST", "get"], []⟩ rfl
  refine ⟨h.1, ?_⟩
  have h2 := h.2 "POST" (by decide)
  simpa using h2

/-- C7: method-list normalization is case-insensitive and idempotent — two
registration calls identical except for the casing of their methods lists
leave the spec-building object in identical states, and a call whose methods
are already lower-cased produces the same state as the original call. -/
theorem c7_methods_case_insensitive_idem {α : Type} (gen : Bool)
    (orig : String → Kwargs → α) (spec : APISpec) (path : String)
    (d : Option Docs) (r : List (String × Nat)) (ms1 ms2 : List String)
    (h : ms1.map pyLower = ms2.map pyLower) :
    (route gen orig spec path ⟨d, some ms1, r⟩).spec =
      (route gen orig spec path ⟨d, some ms2, r⟩).spec ∧
    (route gen orig spec path ⟨d, some ms1, r⟩).spec =
      (route gen orig spec path ⟨d, some (ms1.map pyLower), r⟩).spec := by
  have key : ∀ (msa msb : List String), msa.map pyLower = msb.map pyLower →
      (route gen orig spec path ⟨d, some msa, r⟩).spec =
        (route gen orig spec path ⟨d, some msb, r⟩).spec := by
    intro msa msb hab
    rcases d with _ | dd <;> cases gen <;>
      simp [route, Kwargs.popDocs, Kwargs.getMethods, hab]
  exact ⟨key ms1 ms2 h, key ms1 (ms1.map pyLower) (map_pyLower_idem ms1).symm⟩

/-- Witness for C7 at the spec's own example, `["POST", "Get"]` against
`["post", "get"]`. -/
theorem c7_witness :
    (route true (fun _ _ => (0 : Nat)) ⟨[]⟩ "/hello" ⟨none, some ["POST", "Get"], []⟩).spec =
      (route true (fun _ _ => (0 : Nat)) ⟨[]⟩ "/hello" ⟨none, some ["post", "get"], []⟩).spec ∧
    (route true (fun _ _ => (0 : Nat)) ⟨[]⟩ "/hello" ⟨none, some ["POST", "Get"], []⟩).spec =
      (route true (fun _ _ => (0 : Nat)) ⟨[]⟩ "/hello"
        ⟨none, some (["POST", "Get"].map pyLower), []⟩).spec :=
  c7_methods_case_insensitive_idem true (fun _ _ => (0 : Nat)) ⟨[]⟩ "/hello"
    none [] ["POST", "Get"] ["post", "get"] (by decide)

/-- C9: the lower-casing of method names feeds only the documentation
side-effect; the methods option forwarded to the original registration
function retains its original element order and original casing, the options
mapping being read but not modified for that key. -/
theorem c9_forwarded_methods_keep_casing {α : Type} (gen : Bool)
    (orig : String → Kwargs → α) (spec : APISpec) (path : String)
    (d : Option Docs) (ms : List String) (r : List (String × Nat)) :
    (route gen orig spec path ⟨d, some ms, r⟩).result = orig path ⟨none, some ms, r⟩ ∧
    (route gen orig spec path ⟨d, some ms, r⟩).trace.getLast? =
      some (Event.origRoute path ⟨none, some ms, r⟩) ∧
    (d = none → gen = true →
      (route gen orig spec path ⟨d, some ms, r⟩).spec =
        spec.path path
          ((defaultDocs (ms.map pyLower)).build_operations (ms.map pyLower)) none) := by
  rcases d with _ | dd <;> cases gen <;>
    simp [route, Kwargs.popDocs, Kwargs.getMethods, defaultDocs]

/-- Witness for C9 at a concrete call. -/
theorem c9_witness :
    (route true (fun _ kw => kw.methods) ⟨[]⟩ "/hello" ⟨none, some ["POST", "Get"], []⟩).result =
      some ["POST", "Get"] ∧
    (route true (fun _ kw => kw.methods) ⟨[]⟩ "/hello" ⟨none, some ["POST", "Get"], []⟩).spec =
      APISpec.path ⟨[]⟩ "/hello"
        ((defaultDocs (["POST", "Get"].map pyLower)).build_operations
          (["POST", "Get"].map pyLower)) none := by
  have h := c9_forwarded_methods_keep_casing true (fun _ kw => kw.methods) ⟨[]⟩ "/hello"
    none ["POST", "Get"] []
  exact ⟨h.1, h.2.2 rfl rfl⟩

end ChaliceSpec
